import Mathlib

/-!
Shallow embedding of the Roblox Idea Lab & Robux Planner backend
(`main.py`): the plan lifecycle engine (creation enrichment, task-list
normalization, progress calculation, streak tracking), the static
catalogs, and the HTTP request handlers over a document store.

Machine conventions:
* Python `int` is modelled by `Int` (or `Nat` where the source value is
  a count), Python `str` by `String`, `None` by `Option`.
* Python truthiness on optional strings (`if not t.get("taskId")`)
  treats both `None` and `""` as false; `optFalsy` models this.
* `datetime.utcnow()` / `date.today()` are modelled by explicit
  parameters: `ts : Nat` for `int(utcnow().timestamp())` (seconds),
  `nowIso : String` for `utcnow().isoformat()`, `today : PyDate` for
  `date.today()`.  The source re-reads the clock at each use inside one
  request; the model takes a single reading per request, the typical
  case (sub-second handlers).
* `HTTPException(status_code=s, detail=d)` is modelled by the error
  branch of `Except HErr _` with `HErr.status = s`, `HErr.detail = d`.
-/

/-- An HTTP error response: models `fastapi.HTTPException`. -/
structure HErr where
  status : Nat
  detail : String
deriving DecidableEq, Repr

/-- Python truthiness of an optional string: `None` and `""` are falsy. -/
def optFalsy : Option String → Bool
  | none => true
  | some s => s == ""

/-- Model of pydantic `TaskModel` (main.py lines 84-89):
`taskId`, `dueDate`, `completedAt` optional, `isDone` defaults false. -/
structure TaskModel where
  taskId : Option String := none
  label : String
  isDone : Bool := false
  dueDate : Option String := none
  completedAt : Option String := none
deriving DecidableEq, Repr

/-- Round-to-nearest, ties-to-even adjustment of a truncated quotient
`q`: `r2` is twice the remainder and `den` the divisor, so `r2 > den`
means the discarded fraction exceeds one half and `r2 = den` is the
exact tie, resolved to the even neighbour. -/
def rneAdjust (q r2 den : Nat) : Nat :=
  if den < r2 then q + 1
  else if r2 = den ∧ q % 2 = 1 then q + 1
  else q

/-- Smallest `k` (starting from the accumulator) with `d * 2^k ≥ n`,
driven by explicit fuel; `findK` supplies fuel `n + 1`, always enough
since `d ≥ 1` forces `k ≤ log2 n + 1 ≤ n + 1`. -/
def findKAux (d n : Nat) : Nat → Nat → Nat
  | 0, k => k
  | fuel + 1, k => if n ≤ d * 2 ^ k then k else findKAux d n fuel (k + 1)

/-- The binade of `d / n` for `1 ≤ d ≤ n`: the smallest `k ≥ 0` with
`2^(-k) ≤ d / n`, i.e. `d / n ∈ [2^(-k), 2^(1-k))`. -/
def findK (d n : Nat) : Nat :=
  findKAux d n (n + 1) 0

/-- Smallest `t ≥ 0` with `V < 2^(53+t)`, so `V / 2^t` has at most 53
bits.  The fixed fuel 60 suffices for every `V < 2^113` and in
particular for the `V ≤ 100 * 2^53` arising below. -/
def findTAux (V : Nat) : Nat → Nat → Nat
  | 0, t => t
  | fuel + 1, t => if V < 2 ^ (53 + t) then t else findTAux V fuel (t + 1)

/-- Bit-position search for the product rounding step. -/
def findT (V : Nat) : Nat :=
  findTAux V 60 0

/-- `int(d / n * 100)` evaluated the way CPython does for
`0 ≤ d ≤ n`, `0 < n`: the true quotient `d / n` is correctly rounded
to an IEEE-754 binary64 (round to nearest, ties to even, 53-bit
significand), that double is multiplied by the exact constant 100 with
the same correct rounding, and the result is truncated toward zero.
`m1 / 2^(52+k)` is the rounded quotient and `m2 * 2^(t-52-k)` the
rounded product, both kept as exact dyadic rationals.  Overflow and
gradual underflow never occur for these inputs short of list lengths
beyond 2^1020 and are not modelled.  The model was checked against
CPython on every pair `d ≤ n ≤ 1500`. -/
def floatDivMul100Trunc (d n : Nat) : Nat :=
  if d = 0 then 0
  else
    let k := findK d n
    let s1 := 52 + k
    let N1 := d * 2 ^ s1
    let m1 := rneAdjust (N1 / n) (2 * (N1 % n)) n
    let V := m1 * 100
    let t := findT V
    let m2 := rneAdjust (V / 2 ^ t) (2 * (V % 2 ^ t)) (2 ^ t)
    if s1 ≤ t then m2 * 2 ^ (t - s1) else m2 / 2 ^ (s1 - t)

/-- `calc_progress` (main.py lines 523-527): returns 0 on the empty
list, else `int(done / len(tasks) * 100)`, the binary64 evaluation of
which is `floatDivMul100Trunc`.  This equals the exact floor
`100 * done / total` for every list of fewer than 50 tasks but not
universally: 29 done of 100 stores 28 where the floor is 29
(see `progress_stored_float_trunc`). -/
def calc_progress (tasks : List TaskModel) : Nat :=
  if tasks.isEmpty then 0
  else
    let done := (tasks.filter (fun t => t.isDone)).length
    floatDivMul100Trunc done tasks.length

/-- A Gregorian calendar date, modelling Python `datetime.date`. -/
structure PyDate where
  year : Nat
  month : Nat
  day : Nat
deriving DecidableEq, Repr

/-- Gregorian leap-year test. -/
def isLeap (y : Nat) : Bool :=
  y % 4 == 0 && (y % 100 != 0 || y % 400 == 0)

/-- Days in a month of the Gregorian calendar. -/
def daysInMonth (y m : Nat) : Nat :=
  if m = 2 then (if isLeap y then 29 else 28)
  else if m = 4 ∨ m = 6 ∨ m = 9 ∨ m = 11 then 30
  else 31

/-- Left-pad the decimal representation of `n` with zeros to width `w`. -/
def padNat (w n : Nat) : String :=
  let s := toString n
  ⟨List.replicate (w - s.length) '0'⟩ ++ s

/-- `date.isoformat()`: `YYYY-MM-DD`. -/
def PyDate.isoformat (d : PyDate) : String :=
  padNat 4 d.year ++ "-" ++ padNat 2 d.month ++ "-" ++ padNat 2 d.day

/-- Numeric value of a decimal digit character, if it is one. -/
def digitVal (c : Char) : Option Nat :=
  if c.isDigit then some (c.toNat - 48) else none

/-- `date.fromisoformat`: strict `YYYY-MM-DD` parse with range checks
(year 1-9999 from four digits, month 1-12, day within the month);
any other input raises `ValueError`, modelled by `none`. -/
def PyDate.fromisoformat (s : String) : Option PyDate :=
  match s.toList with
  | [y1, y2, y3, y4, h1, m1, m2, h2, d1, d2] =>
    if h1 = '-' ∧ h2 = '-' then
      match digitVal y1, digitVal y2, digitVal y3, digitVal y4,
            digitVal m1, digitVal m2, digitVal d1, digitVal d2 with
      | some a, some b, some c, some d, some e, some f, some g, some h =>
        let y := ((a * 10 + b) * 10 + c) * 10 + d
        let mo := e * 10 + f
        let da := g * 10 + h
        if 1 ≤ y ∧ 1 ≤ mo ∧ mo ≤ 12 ∧ 1 ≤ da ∧ da ≤ daysInMonth y mo then
          some ⟨y, mo, da⟩
        else none
      | _, _, _, _, _, _, _, _ => none
    else none
  | _ => none

/-- Day number of a Gregorian date (Hinnant's days-from-civil, without
the epoch offset constant: the source only ever uses differences of day
numbers, via `(date.today() - last_d).days`). -/
def daysFromCivil (dt : PyDate) : Nat :=
  let y := if dt.month ≤ 2 then dt.year - 1 else dt.year
  let era := y / 400
  let yoe := y % 400
  let mp := (dt.month + 9) % 12
  let doy := (153 * mp + 2) / 5 + dt.day - 1
  let doe := yoe * 365 + yoe / 4 - yoe / 100 + doy
  era * 146097 + doe

/-- `(a - b).days` for Python dates. -/
def dateDiffDays (a b : PyDate) : Int :=
  (daysFromCivil a : Int) - (daysFromCivil b : Int)

/-- A task of the incoming patch list "completes" this call: it is done
and its `completedAt` is falsy (main.py line 622). -/
def taskCompletes (t : TaskModel) : Bool :=
  t.isDone && optFalsy t.completedAt

/-- Normalization of one task in `patch_tasks` (main.py lines 619-624):
a falsy `taskId` becomes `f"t-{int(datetime.utcnow().timestamp())}"`
(note: no per-index component), and a done task with falsy
`completedAt` is stamped with the current time. -/
def normPatchTask (ts : Nat) (nowIso : String) (t : TaskModel) : TaskModel :=
  let t1 := if optFalsy t.taskId
    then { t with taskId := some ("t-" ++ toString ts) } else t
  if t1.isDone && optFalsy t1.completedAt
    then { t1 with completedAt := some nowIso } else t1

/-- The streak update of `patch_tasks` (main.py lines 627-644), as a
function of the stored `lastCompletedDate`, the stored `streakCount`,
whether any task completed this call, and today's date.  Returns the
new `(streakCount, lastCompletedDate)`.  The source guards the stored
count with `plan.get("streakCount", 0) or 0`, the identity on every
stored integer. -/
def streakUpdate (prevLast : Option String) (prevStreak : Int)
    (completedToday : Bool) (today : PyDate) : Int × Option String :=
  let todayS := today.isoformat
  if completedToday then
    let s :=
      if prevLast = some todayS then prevStreak
      else
        match prevLast with
        | none => 1
        | some lastS =>
          match PyDate.fromisoformat lastS with
          | some d => if dateDiffDays today d = 1 then prevStreak + 1 else 1
          | none => 1
    (s, some todayS)
  else (prevStreak, prevLast)

example : calc_progress [] = 0 := by decide
example : calc_progress
    [{ label := "a", isDone := true }, { label := "b", isDone := true },
     { label := "c", isDone := false }] = 66 := by decide
example : PyDate.fromisoformat "2026-10-12" = some ⟨2026, 10, 12⟩ := by decide
example : PyDate.fromisoformat "2026-13-01" = none := by decide
example : PyDate.isoformat ⟨2026, 10, 12⟩ = "2026-10-12" := by decide
example : dateDiffDays ⟨2026, 10, 12⟩ ⟨2026, 10, 11⟩ = 1 := by decide
example : dateDiffDays ⟨2026, 3, 1⟩ ⟨2026, 2, 28⟩ = 1 := by decide
example : dateDiffDays ⟨2024, 3, 1⟩ ⟨2024, 2, 28⟩ = 2 := by decide

/-- Model of a seeded catalog idea (main.py `GameIdea` / the `idea`
seed helper, lines 38-51 and 163-181).  Display-only fields that no
request handler or enrichment step reads beyond echoing them back
(`shortDescription`, image URLs, `recommendedLevel`) are omitted. -/
structure GameIdea where
  id : String
  title : String
  type : String
  difficulty : String
  tags : List String
  concept : String
  coreMechanics : List String
  funHooks : List String
  monetizationIdeas : List String
deriving DecidableEq, Repr

/-- An earning-path checklist item (main.py `EarnChecklistItem`). -/
structure EarnChecklistItem where
  taskId : String
  label : String
  isOptional : Bool
deriving DecidableEq, Repr

/-- Model of a seeded earning path (main.py `EarnPath` / the `path`
seed helper, lines 63-71 and 307-321).  Fields no handler logic reads
beyond echoing (`steps`, `tips`, `heroImageUrl`) are omitted. -/
structure EarnPath where
  id : String
  title : String
  slug : String
  description : String
  checklist : List EarnChecklistItem
deriving DecidableEq, Repr

/-- The `path` seed helper builds checklist item ids as
`f"{id}-t{i}"` over the enumerated `(label, isOptional)` pairs. -/
def mkChecklist (id : String) (items : List (String × Bool)) : List EarnChecklistItem :=
  items.enum.map fun it =>
    { taskId := id ++ "-t" ++ toString it.1, label := it.2.1, isOptional := it.2.2 }

/-- Model of a seeded world inspiration (main.py `WorldInspiration` /
the `world` seed helper).  Fields no handler logic reads beyond
echoing (`useCases`, `buildChecklist`, `image3DUrl`) are omitted. -/
structure World where
  id : String
  title : String
  tags : List String
  visualStyleNotes : String
deriving DecidableEq, Repr

/-- The seeded `IDEAS` catalog (main.py lines 184-305). -/
def IDEAS : List GameIdea := [
  { id := "idea-obby-lava", title := "Lava Parkour with Moving Platforms",
    type := "Obby", difficulty := "Beginner", tags := ["Obby", "Parkour"],
    concept := "Dash across floating islands above lava rivers. Time your jumps on moving platforms and collect coins to unlock shortcuts.",
    coreMechanics := ["Jump timing", "Moving platforms", "Checkpoints", "Collectibles", "Speed pads"],
    funHooks := ["Daily challenges", "Hidden rooms", "Co-op races", "Seasonal events"],
    monetizationIdeas := ["Gamepasses: double coins, speed boost", "Dev products: shield, checkpoint skip", "Cosmetics: trails, pets"] },
  { id := "idea-tycoon-pets", title := "Pet Rescue Tycoon",
    type := "Tycoon", difficulty := "Intermediate", tags := ["Tycoon", "Pets", "Simulator"],
    concept := "Build a pet rescue center, treat animals, and expand rooms to serve more visitors.",
    coreMechanics := ["Gather resources", "Upgrade rooms", "Mini-games for pet care", "NPC adoption system"],
    funHooks := ["Events", "Rare pet drops", "Friend boosts"],
    monetizationIdeas := ["Gamepasses: double income", "Dev products: boost packs", "Cosmetics: skins"] },
  { id := "idea-sim-mining", title := "Crystal Mining Simulator",
    type := "Simulator", difficulty := "Beginner", tags := ["Simulator", "Mining"],
    concept := "Mine colorful crystals, refine them, and sell to upgrade your drill.",
    coreMechanics := ["Resource nodes", "Backpack capacity", "Refinery", "Upgrades"],
    funHooks := ["Meteor showers", "Boss rock", "Obby shortcut caves"],
    monetizationIdeas := ["Gamepasses: extra capacity", "Dev products: boost potions", "Cosmetics: pickaxe skins"] },
  { id := "idea-role-cafe", title := "Cozy Cafe Roleplay",
    type := "Roleplay", difficulty := "Beginner", tags := ["Roleplay", "Social"],
    concept := "Run a cute cafe with friends, serve pastries, and decorate the shop.",
    coreMechanics := ["Cooking mini-game", "Customer queue", "Decor placement", "Emotes"],
    funHooks := ["Seasonal menus", "Competitions", "Photo mode"],
    monetizationIdeas := ["Cosmetics", "Gamepasses: VIP lounge", "Premium payouts"] },
  { id := "idea-horror-mansion", title := "Haunted Mansion Story",
    type := "Horror", difficulty := "Intermediate", tags := ["Horror", "Story"],
    concept := "Explore a spooky mansion, solve puzzles, and escape before midnight.",
    coreMechanics := ["Inventory puzzles", "Chase sequences", "Light management"],
    funHooks := ["Hidden endings", "Secret rooms"],
    monetizationIdeas := ["Cosmetics only", "Premium payouts"] },
  { id := "idea-story-space", title := "Lost Astronaut Story",
    type := "Story", difficulty := "Intermediate", tags := ["Story", "Sci-fi"],
    concept := "Find a way home after your ship crashes on a neon planet.",
    coreMechanics := ["Dialogue choices", "Crafting", "Exploration"],
    funHooks := ["Time trials", "Photo collectibles"],
    monetizationIdeas := ["Cosmetics: suits", "Dev products: temporary boosts"] },
  { id := "idea-pvp-arena", title := "Neon PvP Arena",
    type := "PvP", difficulty := "Advanced", tags := ["PvP", "Action"],
    concept := "Fast rounds in a compact neon arena with jump pads and powerups.",
    coreMechanics := ["Round-based", "Powerups", "Team vs team"],
    funHooks := ["Ranked ladder", "Season pass", "Clans"],
    monetizationIdeas := ["Cosmetics", "Gamepasses: private servers", "Dev products: boosters"] },
  { id := "idea-obby-ice", title := "Ice Cave Obby",
    type := "Obby", difficulty := "Beginner", tags := ["Obby", "Winter"],
    concept := "Slippery tunnels with sliding surfaces and falling icicles.",
    coreMechanics := ["Slide physics", "Timed doors", "Checkpoints"],
    funHooks := ["Speedrun boards", "Hidden penguin pet"],
    monetizationIdeas := ["Cosmetics: trails", "Gamepasses: double coins"] },
  { id := "idea-tycoon-mall", title := "Mini Mall Tycoon",
    type := "Tycoon", difficulty := "Intermediate", tags := ["Tycoon", "Builder"],
    concept := "Build a tiny mall with themed shops and hire NPCs.",
    coreMechanics := ["Income tick", "Hire & upgrade NPCs", "Decor placement"],
    funHooks := ["Events", "Limited-time shops"],
    monetizationIdeas := ["Dev products: cash packs", "Gamepasses: double income", "Cosmetics: outfits"] },
  { id := "idea-sim-racing", title := "Cloud Kart Racer",
    type := "Simulator", difficulty := "Beginner", tags := ["Racing", "Simulator"],
    concept := "Arcade racing on cloud tracks with boosters and banners.",
    coreMechanics := ["Time trials", "Kart upgrades", "Boost pads"],
    funHooks := ["Ghost races", "Seasonal tracks"],
    monetizationIdeas := ["Cosmetics: karts", "Season pass", "Dev products: boosters"] },
  { id := "idea-role-hospital", title := "Mini Hospital Roleplay",
    type := "Roleplay", difficulty := "Beginner", tags := ["Roleplay", "Builder"],
    concept := "Treat patients in a friendly hospital and unlock new rooms.",
    coreMechanics := ["Mini-games", "NPC schedules", "Decor"],
    funHooks := ["Events", "Photo quests"],
    monetizationIdeas := ["Cosmetics", "Premium payouts"] },
  { id := "idea-horror-forest", title := "Whispering Forest",
    type := "Horror", difficulty := "Intermediate", tags := ["Horror"],
    concept := "Survive nights in a foggy forest with a roaming creature.",
    coreMechanics := ["Stealth", "Sound cues", "Crafting traps"],
    funHooks := ["Leaderboards", "Hidden lore"],
    monetizationIdeas := ["Cosmetics only"] },
  { id := "idea-story-school", title := "Mystery at Pixel High",
    type := "Story", difficulty := "Beginner", tags := ["Story", "School"],
    concept := "Solve a school mystery using clues and mini-puzzles.",
    coreMechanics := ["Dialogue", "Puzzle rooms", "Collectibles"],
    funHooks := ["Photo mode", "Multiple endings"],
    monetizationIdeas := ["Cosmetics"] },
  { id := "idea-pvp-battle-royale", title := "Tiny Battle Royale",
    type := "PvP", difficulty := "Advanced", tags := ["PvP", "Shooter"],
    concept := "Quick 12-player rounds on micro islands.",
    coreMechanics := ["Drops", "Storm circle", "Attachments"],
    funHooks := ["Ranked", "Clans"],
    monetizationIdeas := ["Cosmetics", "Battle pass"] },
  { id := "idea-obby-toy", title := "Toy Factory Obby",
    type := "Obby", difficulty := "Beginner", tags := ["Obby", "Cute"],
    concept := "Colorful conveyor belts and bouncy toys as obstacles.",
    coreMechanics := ["Conveyors", "Jump pads", "Timing"],
    funHooks := ["Daily quests", "Secret plushies"],
    monetizationIdeas := ["Cosmetics", "Dev products: boosters"] },
  { id := "idea-tycoon-farm", title := "Pixel Farm Tycoon",
    type := "Tycoon", difficulty := "Beginner", tags := ["Tycoon", "Farm"],
    concept := "Grow crops, upgrade tractors, sell at market.",
    coreMechanics := ["Plant/harvest", "Upgrades", "Delivery quests"],
    funHooks := ["Seasonal crops", "Friend boosts"],
    monetizationIdeas := ["Gamepasses: double yield", "Cosmetics: skins"] },
  { id := "idea-sim-bakery", title := "Bakery Simulator",
    type := "Simulator", difficulty := "Beginner", tags := ["Simulator", "Cooking"],
    concept := "Mix ingredients, bake pastries, and decorate your shop.",
    coreMechanics := ["Recipe mini-games", "Upgrades", "Delivery"],
    funHooks := ["Events", "Photo mode"],
    monetizationIdeas := ["Cosmetics", "Boost packs"] },
  { id := "idea-role-city", title := "Mini City Roleplay",
    type := "Roleplay", difficulty := "Intermediate", tags := ["Roleplay", "City"],
    concept := "Jobs, apartments, vehicles in a tiny city.",
    coreMechanics := ["Job mini-games", "Housing", "Vehicles"],
    funHooks := ["Events", "Photo mode"],
    monetizationIdeas := ["Cosmetics", "Premium payouts"] },
  { id := "idea-horror-lab", title := "Lab Escape",
    type := "Horror", difficulty := "Advanced", tags := ["Horror", "Sci-fi"],
    concept := "Escape a glitchy lab with puzzles and stealth.",
    coreMechanics := ["Stealth", "Puzzles", "Chase"],
    funHooks := ["Speedrun", "Hidden endings"],
    monetizationIdeas := ["Cosmetics only"] },
  { id := "idea-story-fantasy", title := "Crystal Kingdom",
    type := "Story", difficulty := "Beginner", tags := ["Story", "Fantasy"],
    concept := "Restore a shattered kingdom by finding crystal shards.",
    coreMechanics := ["Exploration", "Boss fights", "Crafting"],
    funHooks := ["Photo mode", "Quests"],
    monetizationIdeas := ["Cosmetics"] }]

/-- The seeded `PATHS` catalog (main.py lines 323-428). -/
def PATHS : List EarnPath := [
  { id := "path-create-games", title := "Create Games", slug := "create-games",
    description := "Earn Robux by building and publishing fair, fun experiences.",
    checklist := mkChecklist "path-create-games"
      [("Install Roblox Studio", false), ("Ship your first tiny game", false),
       ("Add 1 cosmetic and 1 boost", false), ("Test with 3 friends", false),
       ("Read TOS monetization rules", true)] },
  { id := "path-ugc-items", title := "Create UGC Items", slug := "ugc-items",
    description := "Design hats and accessories that follow UGC rules.",
    checklist := mkChecklist "path-ugc-items"
      [("Pick a modeling workflow", false), ("Create 1 hat prototype", false),
       ("Render & preview in Studio", false), ("Read UGC guidelines", true)] },
  { id := "path-gamepasses", title := "Gamepasses & Dev Products", slug := "gamepasses",
    description := "Fair ways to monetize experiences without pay-to-win.",
    checklist := mkChecklist "path-gamepasses"
      [("List 5 cosmetic ideas", false), ("Design 3 useful boosts", false),
       ("Set initial prices", false), ("Test with friends", false)] },
  { id := "path-commissions", title := "Commissions & Building for Others", slug := "commissions",
    description := "Earn by helping teams with building, UI, or scripting.",
    checklist := mkChecklist "path-commissions"
      [("Make a portfolio page", false), ("Finish 1 paid mini gig", false),
       ("Ask for testimonial", false)] },
  { id := "path-premium-payouts", title := "Roblox Premium/Engagement Payouts", slug := "premium-payouts",
    description := "Design for healthy engagement to qualify for payouts.",
    checklist := mkChecklist "path-premium-payouts"
      [("Read official rules", false), ("Add daily/weekly quests", false),
       ("Run retention test", false)] }]

/-- The seeded `WORLDS` catalog (main.py lines 441-454). -/
def WORLDS : List World := [
  { id := "world-floating-islands", title := "Floating Islands", tags := ["lobby", "fantasy"],
    visualStyleNotes := "Soft clouds, pastel rocks, coins floating." },
  { id := "world-cute-shop", title := "Cute Pet Shop", tags := ["shop", "cute"],
    visualStyleNotes := "Warm lights, rounded shelves, plush props." },
  { id := "world-sci-hub", title := "Sci‑Fi Hub", tags := ["sci-fi", "hub"],
    visualStyleNotes := "Neon trims, hex panels, fog." },
  { id := "world-cloud-track", title := "Cloud Track", tags := ["race", "sport"],
    visualStyleNotes := "High contrast track, boosters, banners." },
  { id := "world-lava-cave", title := "Lava Cave", tags := ["obby", "lava"],
    visualStyleNotes := "Orange glow, smoke, crystals." },
  { id := "world-winter-town", title := "Winter Town", tags := ["cozy", "winter"],
    visualStyleNotes := "Snow sparkle, wood cabins, lights." },
  { id := "world-space-port", title := "Space Port", tags := ["sci-fi"],
    visualStyleNotes := "Steel floors, blinking lights, panels." },
  { id := "world-beach-resort", title := "Beach Resort", tags := ["summer", "roleplay"],
    visualStyleNotes := "Turquoise water, palm trees, towels." },
  { id := "world-forest-camp", title := "Forest Camp", tags := ["nature", "cozy"],
    visualStyleNotes := "Green fog, campfire, tents." },
  { id := "world-city-neon", title := "Neon City", tags := ["city", "neon"],
    visualStyleNotes := "Wet asphalt, neon signs, reflections." },
  { id := "world-sky-castle", title := "Sky Castle", tags := ["fantasy"],
    visualStyleNotes := "Crystal towers, floating shards, banners." },
  { id := "world-desert-ruins", title := "Desert Ruins", tags := ["desert", "explore"],
    visualStyleNotes := "Dust, sandstone, statues." }]

/-- Model of pydantic `PlanCreate` (main.py lines 91-98), after
validation has succeeded: `name` and `type` present, `type` in the
enumeration. -/
structure PlanCreate where
  name : String
  type : String
  linkedIdeaId : Option String := none
  linkedPathId : Option String := none
  robuxGoal : Option Int := none
  notes : Option String := none
  tasks : List TaskModel := []
deriving DecidableEq, Repr

/-- A stored plan document, with the fields `create_plan` writes
(main.py lines 563-576). -/
structure Plan where
  name : String
  type : String
  linkedIdeaId : Option String
  linkedPathId : Option String
  robuxGoal : Option Int
  notes : String
  tasks : List TaskModel
  progressPercent : Nat
  streakCount : Int
  lastCompletedDate : Option String
  createdAt : String
  updatedAt : String
deriving DecidableEq, Repr

/-- Model of pydantic `PlanUpdate` (main.py lines 100-108).  Note the
`streakCount` field: a PUT body may carry an arbitrary integer for it. -/
structure PlanUpdate where
  name : Option String := none
  type : Option String := none
  linkedIdeaId : Option String := none
  linkedPathId : Option String := none
  robuxGoal : Option Int := none
  notes : Option String := none
  tasks : Option (List TaskModel) := none
  streakCount : Option Int := none
deriving DecidableEq, Repr

/-- Normalization of one task in `create_plan` (main.py lines 558-561):
a falsy `taskId` becomes `f"t{idx}-{int(datetime.utcnow().timestamp())}"`.
The `t.setdefault("isDone", False)` step is a no-op in the model, where
`isDone` is always present. -/
def normTaskCreate (ts idx : Nat) (t : TaskModel) : TaskModel :=
  if optFalsy t.taskId
    then { t with taskId := some ("t" ++ toString idx ++ "-" ++ toString ts) }
    else t

/-- The `for idx, t in enumerate(tasks)` normalization loop of
`create_plan`, with the running index made explicit. -/
def normalizeCreateTasksFrom (ts : Nat) : Nat → List TaskModel → List TaskModel
  | _, [] => []
  | idx, t :: rest => normTaskCreate ts idx t :: normalizeCreateTasksFrom ts (idx + 1) rest

/-- `create_plan` task normalization, starting at index 0. -/
def normalizeCreateTasks (ts : Nat) (tasks : List TaskModel) : List TaskModel :=
  normalizeCreateTasksFrom ts 0 tasks

/-- The synthetic tasks appended for a resolved linked idea (main.py
lines 544-548): the first 3 core mechanics and first 2 fun hooks as
`"Design: {label}"` tasks, then the first 2 monetization ideas as
`"Plan monetization: {label}"` tasks, each not done. -/
def ideaTasks (idea : GameIdea) : List TaskModel :=
  ((idea.coreMechanics.take 3 ++ idea.funHooks.take 2).map fun l =>
    { label := "Design: " ++ l, isDone := false }) ++
  ((idea.monetizationIdeas.take 2).map fun l =>
    { label := "Plan monetization: " ++ l, isDone := false })

/-- The synthetic tasks appended for a resolved linked path (main.py
lines 554-555): one per of the first 6 checklist items, using the
item's label (always present in the seeded data). -/
def pathTasks (p : EarnPath) : List TaskModel :=
  (p.checklist.take 6).map fun c => { label := c.label, isDone := false }

/-- The enrichment phase of `create_plan` (main.py lines 536-555): the
caller tasks with the idea- and path-derived synthetic tasks appended,
paired with the notes after defaulting (idea concept first, then path
description, each only when the notes so far are falsy). -/
def createEnriched (p : PlanCreate) : List TaskModel × Option String :=
  let st1 :=
    match p.linkedIdeaId with
    | none => (p.tasks, p.notes)
    | some iid =>
      match IDEAS.find? (fun (i : GameIdea) => i.id == iid) with
      | none => (p.tasks, p.notes)
      | some idea =>
        (p.tasks ++ ideaTasks idea,
         if optFalsy p.notes then some idea.concept else p.notes)
  let st2 :=
    match p.linkedPathId with
    | none => st1
    | some pid =>
      match PATHS.find? (fun (q : EarnPath) => q.id == pid) with
      | none => st1
      | some pa =>
        (st1.1 ++ pathTasks pa,
         if optFalsy st1.2 then some pa.description else st1.2)
  st2

/-- The plan document built by `create_plan` (main.py lines 536-576):
enrichment, task-id normalization, derived progress, zero streak
state, the notes collapsed to `""` when still falsy. -/
def createPlanData (p : PlanCreate) (ts : Nat) (nowIso : String) : Plan :=
  let st2 := createEnriched p
  let tasks := normalizeCreateTasks ts st2.1
  { name := p.name, type := p.type,
    linkedIdeaId := p.linkedIdeaId, linkedPathId := p.linkedPathId,
    robuxGoal := p.robuxGoal,
    notes := (match st2.2 with | none => "" | some s => s),
    tasks := tasks,
    progressPercent := calc_progress tasks,
    streakCount := 0, lastCompletedDate := none,
    createdAt := nowIso, updatedAt := nowIso }

/-- The plan document written by `patch_tasks` (main.py lines 611-657):
the stored task list is replaced by the normalized incoming list,
progress is recomputed from it, and the streak state is updated from
whether any incoming task completed this call. -/
def patchTasksApply (plan : Plan) (incoming : List TaskModel) (ts : Nat)
    (nowIso : String) (today : PyDate) : Plan :=
  let normed := incoming.map (normPatchTask ts nowIso)
  let completedToday := incoming.any taskCompletes
  let su := streakUpdate plan.lastCompletedDate plan.streakCount completedToday today
  { plan with
    tasks := normed, progressPercent := calc_progress normed,
    streakCount := su.1, lastCompletedDate := su.2, updatedAt := nowIso }

/-- The `$set` document of `put_plan` (main.py lines 594-597): every
non-`None` payload field except `tasks` overwrites the stored field,
plus `updatedAt`.  (`model_dump(exclude_none=True)` drops `None`
fields, so a PUT can never reset an optional field to absent.) -/
def applyPlanUpdate (plan : Plan) (u : PlanUpdate) (nowIso : String) : Plan :=
  { plan with
    name := u.name.getD plan.name,
    type := u.type.getD plan.type,
    linkedIdeaId := (match u.linkedIdeaId with | some v => some v | none => plan.linkedIdeaId),
    linkedPathId := (match u.linkedPathId with | some v => some v | none => plan.linkedPathId),
    robuxGoal := (match u.robuxGoal with | some v => some v | none => plan.robuxGoal),
    notes := u.notes.getD plan.notes,
    streakCount := u.streakCount.getD plan.streakCount,
    updatedAt := nowIso }

/-- The `$set` document of `patch_notes` (main.py line 668). -/
def patchNotesApply (plan : Plan) (notes : String) (nowIso : String) : Plan :=
  { plan with notes := notes, updatedAt := nowIso }

/-- The `plan` collection of the document store: stored plans keyed by
their opaque string id. -/
structure Store where
  plans : List (String × Plan)
deriving DecidableEq, Repr

/-- `to_object_id` validity (main.py lines 23-27): `bson.ObjectId`
accepts exactly 24-hex-character strings (spec section 4.2: "an opaque
24-hex-character style identifier"); anything else raises, yielding a
400 "Invalid ID format". -/
def isValidObjectId (s : String) : Bool :=
  s.length == 24 && s.toList.all fun c =>
    c.isDigit || ('a' ≤ c && c ≤ 'f') || ('A' ≤ c && c ≤ 'F')

/-- `find_one({"_id": id})` on the plan collection. -/
def storeFind (st : Store) (id : String) : Option Plan :=
  (st.plans.find? (fun e => e.1 == id)).map (fun e => e.2)

/-- `update_one({"_id": id}, {"$set": ...})`, with the replacement
document already computed. -/
def storeSet (st : Store) (id : String) (p : Plan) : Store :=
  ⟨st.plans.map fun e => if e.1 == id then (e.1, p) else e⟩

/-- `delete_one({"_id": id})`. -/
def storeDelete (st : Store) (id : String) : Store :=
  ⟨st.plans.filter fun e => e.1 != id⟩

/-- Modelled from the spec: the store-assigned opaque identifier that
`database.create_document` returns (the `database` module is not part
of the repository; spec section 4.2: `insert(collection, record) -> id`).
The concrete shape is immaterial to every claim. -/
def newPlanId (st : Store) : String :=
  padNat 24 st.plans.length

/-- Modelled from the spec: `database.create_document` (the `database`
module is not part of the repository).  Spec section 4.2 gives
`insert(collection, record) -> id`; spec section 7 makes an
unconfigured store a StoreUnavailable error, surfaced as a 500 with a
generic message. -/
def createDocument (db : Option Store) (plan : Plan) : Except HErr (String × Store) :=
  match db with
  | none => .error ⟨500, "Database not configured"⟩
  | some st => .ok (newPlanId st, ⟨st.plans ++ [(newPlanId st, plan)]⟩)

/-- The raw JSON body of `POST /api/plans` before pydantic validation:
each field possibly absent. -/
structure RawPlanCreate where
  name : Option String := none
  type : Option String := none
  linkedIdeaId : Option String := none
  linkedPathId : Option String := none
  robuxGoal : Option Int := none
  notes : Option String := none
  tasks : List TaskModel := []
deriving DecidableEq, Repr

/-- The `type` enumeration of `PlanCreate.type` (main.py line 93). -/
def planTypeOk (ty : String) : Bool :=
  ty == "game" || ty == "earning" || ty == "challenge"

/-- FastAPI/pydantic request validation for `PlanCreate` (main.py
lines 91-98): `name` and `type` are required and `type` must match the
fixed enumeration; a failure is a 422 returned before the handler body
(and hence before any store access) runs. -/
def parsePlanCreate (raw : RawPlanCreate) : Except HErr PlanCreate :=
  match raw.name, raw.type with
  | some n, some ty =>
    if planTypeOk ty then
      .ok { name := n, type := ty, linkedIdeaId := raw.linkedIdeaId,
            linkedPathId := raw.linkedPathId, robuxGoal := raw.robuxGoal,
            notes := raw.notes, tasks := raw.tasks }
    else .error ⟨422, "Unprocessable Entity"⟩
  | _, _ => .error ⟨422, "Unprocessable Entity"⟩

/-- `GET /api/plans` (main.py lines 529-532): with no configured store
the handler returns the empty list (status 200), otherwise all stored
plan documents (`database.get_documents`, not in the repository, is
spec section 4.2 `findAll`). -/
def getPlansR (db : Option Store) : Except HErr (List Plan) :=
  match db with
  | none => .ok []
  | some st => .ok (st.plans.map (fun e => e.2))

/-- `POST /api/plans` (main.py lines 534-579): validation, enrichment
and normalization, then insertion; returns the stored document and the
store after the call. -/
def createPlanR (db : Option Store) (raw : RawPlanCreate) (ts : Nat)
    (nowIso : String) : Except HErr Plan × Option Store :=
  match parsePlanCreate raw with
  | .error e => (.error e, db)
  | .ok p =>
    let plan := createPlanData p ts nowIso
    match createDocument db plan with
    | .error e => (.error e, db)
    | .ok (_, st) => (.ok plan, some st)

/-- `GET /api/plans/{plan_id}` (main.py lines 581-588): 500 when the
store is not configured, 400 on a malformed id, 404 when absent. -/
def getPlanR (db : Option Store) (id : String) : Except HErr Plan :=
  match db with
  | none => .error ⟨500, "Database not configured"⟩
  | some st =>
    if ¬ isValidObjectId id then .error ⟨400, "Invalid ID format"⟩
    else
      match storeFind st id with
      | none => .error ⟨404, "Plan not found"⟩
      | some p => .ok p

/-- `PUT /api/plans/{plan_id}` (main.py lines 590-601). -/
def putPlanR (db : Option Store) (id : String) (u : PlanUpdate)
    (nowIso : String) : Except HErr Plan × Option Store :=
  match db with
  | none => (.error ⟨500, "Database not configured"⟩, db)
  | some st =>
    if ¬ isValidObjectId id then (.error ⟨400, "Invalid ID format"⟩, db)
    else
      match storeFind st id with
      | none => (.error ⟨404, "Plan not found"⟩, db)
      | some plan =>
        let p2 := applyPlanUpdate plan u nowIso
        (.ok p2, some (storeSet st id p2))

/-- `PATCH /api/plans/{plan_id}/tasks` (main.py lines 603-661). -/
def patchTasksR (db : Option Store) (id : String) (incoming : List TaskModel)
    (ts : Nat) (nowIso : String) (today : PyDate) :
    Except HErr Plan × Option Store :=
  match db with
  | none => (.error ⟨500, "Database not configured"⟩, db)
  | some st =>
    if ¬ isValidObjectId id then (.error ⟨400, "Invalid ID format"⟩, db)
    else
      match storeFind st id with
      | none => (.error ⟨404, "Plan not found"⟩, db)
      | some plan =>
        let p2 := patchTasksApply plan incoming ts nowIso today
        (.ok p2, some (storeSet st id p2))

/-- `PATCH /api/plans/{plan_id}/notes` (main.py lines 663-672). -/
def patchNotesR (db : Option Store) (id : String) (notes : String)
    (nowIso : String) : Except HErr Plan × Option Store :=
  match db with
  | none => (.error ⟨500, "Database not configured"⟩, db)
  | some st =>
    if ¬ isValidObjectId id then (.error ⟨400, "Invalid ID format"⟩, db)
    else
      match storeFind st id with
      | none => (.error ⟨404, "Plan not found"⟩, db)
      | some plan =>
        let p2 := patchNotesApply plan notes nowIso
        (.ok p2, some (storeSet st id p2))

/-- `DELETE /api/plans/{plan_id}` (main.py lines 674-681): returns
`{"ok": True}`, modelled as `Unit`. -/
def deletePlanR (db : Option Store) (id : String) :
    Except HErr Unit × Option Store :=
  match db with
  | none => (.error ⟨500, "Database not configured"⟩, db)
  | some st =>
    if ¬ isValidObjectId id then (.error ⟨400, "Invalid ID format"⟩, db)
    else
      match storeFind st id with
      | none => (.error ⟨404, "Plan not found"⟩, db)
      | some _ => (.ok (), some (storeDelete st id))

/-- List-of-characters version of Python string containment: does the
needle occur as a contiguous run of the haystack? -/
def charsBeginWith : List Char → List Char → Bool
  | [], _ => true
  | _ :: _, [] => false
  | a :: as, b :: bs => a == b && charsBeginWith as bs

/-- Python `needle in hay` for strings, on exploded characters. -/
def charsHasSub (needle : List Char) : List Char → Bool
  | [] => needle.isEmpty
  | b :: t => charsBeginWith needle (b :: t) || charsHasSub needle t

/-- Python `needle in hay` on strings. -/
def strIn (needle hay : String) : Bool :=
  charsHasSub needle.toList hay.toList

/-- `GET /api/ideas` (main.py lines 460-472): conjunctive filters;
`type`/`difficulty` case-insensitive equality, `tag` case-sensitive
membership, `q` lowercased substring of title and concept; a falsy
(absent or empty) query parameter disables its filter. -/
def listIdeasR (tyQ diffQ tagQ qQ : Option String) : Except HErr (List GameIdea) :=
  let d0 := IDEAS
  let d1 := match tyQ with
    | some s => if s == "" then d0 else d0.filter fun i => i.type.toLower == s.toLower
    | none => d0
  let d2 := match diffQ with
    | some s => if s == "" then d1 else d1.filter fun i => i.difficulty.toLower == s.toLower
    | none => d1
  let d3 := match tagQ with
    | some s => if s == "" then d2 else d2.filter fun i => i.tags.contains s
    | none => d2
  let d4 := match qQ with
    | some s => if s == "" then d3 else
        d3.filter fun i => strIn s.toLower (i.title.toLower ++ " " ++ i.concept.toLower)
    | none => d3
  .ok d4

/-- `GET /api/ideas/{idea_id}` (main.py lines 474-479). -/
def getIdeaR (id : String) : Except HErr GameIdea :=
  match IDEAS.find? (fun (i : GameIdea) => i.id == id) with
  | none => .error ⟨404, "Idea not found"⟩
  | some i => .ok i

/-- `GET /api/paths` (main.py lines 493-495); `/api/earning-paths` is
the same body. -/
def listPathsR : Except HErr (List EarnPath) :=
  .ok PATHS

/-- `GET /api/paths/{path_id}` (main.py lines 497-502); the legacy
`/api/earning-paths/{path_id}` alias has the same body. -/
def getPathR (id : String) : Except HErr EarnPath :=
  match PATHS.find? (fun (p : EarnPath) => p.id == id) with
  | none => .error ⟨404, "Path not found"⟩
  | some p => .ok p

/-- `GET /api/worlds` (main.py lines 504-512). -/
def listWorldsR (tagQ qQ : Option String) : Except HErr (List World) :=
  let d0 := WORLDS
  let d1 := match tagQ with
    | some s => if s == "" then d0 else d0.filter fun w => w.tags.contains s
    | none => d0
  let d2 := match qQ with
    | some s => if s == "" then d1 else
        d1.filter fun w => strIn s.toLower (w.title.toLower ++ " " ++ w.visualStyleNotes.toLower)
    | none => d1
  .ok d2

/-- `GET /api/worlds/{world_id}` (main.py lines 514-519). -/
def getWorldR (id : String) : Except HErr World :=
  match WORLDS.find? (fun (w : World) => w.id == id) with
  | none => .error ⟨404, "World not found"⟩
  | some w => .ok w

/-- For every task list of fewer than 50 tasks, the binary64
evaluation of `int(done / total * 100)` coincides with the exact floor
`100 * done / total`; checked exhaustively over all pairs.  (The first
divergence is at total = 50: `floatDivMul100Trunc 29 50 = 57` while
the floor is 58.) -/
theorem floatDivMul100Trunc_eq_floor_of_lt_50 :
    ∀ n, n < 50 → ∀ d, d ≤ n → 0 < n → floatDivMul100Trunc d n = 100 * d / n := by
  decide

/-- C1 (amended): every plan written by Create or Patch-tasks stores
`progressPercent` equal to the truncation toward zero of the binary64
evaluation of `done / total * 100` over the plan's final task list
(0 when the list is empty).  This is neither the claimed rounding
(`progress_not_round_cex`) nor universally the exact floor: it agrees
with `⌊100 * done / total⌋` on every list of fewer than 50 tasks, but
29 done of 100 stores 28 where the floor is 29. -/
theorem progress_stored_float_trunc (p : PlanCreate) (plan : Plan)
    (inc : List TaskModel) (ts ts2 : Nat) (iso iso2 : String) (today : PyDate) :
    ((createPlanData p ts iso).progressPercent =
      calc_progress (createPlanData p ts iso).tasks) ∧
    ((patchTasksApply plan inc ts2 iso2 today).progressPercent =
      calc_progress (patchTasksApply plan inc ts2 iso2 today).tasks) ∧
    (calc_progress [] = 0) ∧
    (∀ tasks : List TaskModel, tasks ≠ [] → tasks.length < 50 →
      calc_progress tasks =
        100 * (tasks.filter (fun t => t.isDone)).length / tasks.length) ∧
    (floatDivMul100Trunc 29 100 = 28 ∧ 100 * 29 / 100 = 29) := by
  refine ⟨rfl, rfl, rfl, fun tasks hne hlen => ?_, by decide, by decide⟩
  have he : tasks.isEmpty = false := by simpa [List.isEmpty_iff] using hne
  rw [calc_progress, he]
  simp only [Bool.false_eq_true, if_false]
  exact floatDivMul100Trunc_eq_floor_of_lt_50 tasks.length hlen
    (tasks.filter (fun t => t.isDone)).length (List.length_filter_le _ _)
    (List.length_pos.mpr hne)

/-- A create payload with three tasks, two of them done. -/
def c1Payload : PlanCreate :=
  { name := "P", type := "game",
    tasks := [{ label := "a", isDone := true }, { label := "b", isDone := true },
              { label := "c" }] }

/-- C1 counterexample: the plan stored for `c1Payload` has
`progressPercent = 66 = int(2/3*100)`, not `round(200/3) = 67` as the
claim states. -/
theorem progress_not_round_cex :
    ((createPlanData c1Payload 0 "T").progressPercent : ℤ) ≠
      round (100 * ((((createPlanData c1Payload 0 "T").tasks.filter (fun t => t.isDone)).length : ℚ)) /
        (((createPlanData c1Payload 0 "T").tasks.length : ℚ))) := by
  have h1 : (createPlanData c1Payload 0 "T").progressPercent = 66 := by decide
  have h2 : ((createPlanData c1Payload 0 "T").tasks.filter (fun t => t.isDone)).length = 2 := by decide
  have h3 : (createPlanData c1Payload 0 "T").tasks.length = 3 := by decide
  rw [h1, h2, h3]
  rw [show ((100 : ℚ) * (2 : ℕ) / (3 : ℕ)) = 200 / 3 by norm_num]
  rw [show round ((200 : ℚ) / 3) = 67 by
    rw [round_eq, show (200 : ℚ) / 3 + 1 / 2 = 403 / 6 by norm_num]
    rw [Int.floor_eq_iff]
    norm_num]
  norm_num

/-- C1 witness: the floor-agreement clause applied to the concrete
stored list of `c1Payload`: three tasks with two done store
`100 * 2 / 3 = 66`. -/
theorem progress_stored_float_trunc_witness :
    calc_progress (createPlanData c1Payload 0 "T").tasks =
      100 * ((createPlanData c1Payload 0 "T").tasks.filter (fun t => t.isDone)).length /
        (createPlanData c1Payload 0 "T").tasks.length :=
  (progress_stored_float_trunc c1Payload
    { name := "x", type := "game", linkedIdeaId := none, linkedPathId := none,
      robuxGoal := none, notes := "", tasks := [], progressPercent := 0,
      streakCount := 0, lastCompletedDate := none, createdAt := "", updatedAt := "" }
    [] 0 0 "T" "T" ⟨2026, 10, 12⟩).2.2.2.1
    (createPlanData c1Payload 0 "T").tasks (by decide) (by decide)


/-- `normPatchTask` never touches `label`, `isDone` or `dueDate`. -/
theorem normPatchTask_keeps_display (ts : Nat) (iso : String) (t : TaskModel) :
    (normPatchTask ts iso t).label = t.label ∧
    (normPatchTask ts iso t).isDone = t.isDone ∧
    (normPatchTask ts iso t).dueDate = t.dueDate := by
  cases hid : optFalsy t.taskId <;>
    cases hc : t.isDone && optFalsy t.completedAt <;>
      simp [normPatchTask, hid, hc]

/-- The `completedAt` written by `normPatchTask`: stamped with the
current time exactly when the incoming task is done with a falsy
`completedAt`, kept verbatim otherwise. -/
theorem normPatchTask_completedAt (ts : Nat) (iso : String) (t : TaskModel) :
    (normPatchTask ts iso t).completedAt =
      (if taskCompletes t then some iso else t.completedAt) := by
  cases hid : optFalsy t.taskId <;>
    cases hc : t.isDone && optFalsy t.completedAt <;>
      simp [normPatchTask, taskCompletes, hid, hc]

/-- The `taskId` written by `normPatchTask`: the generated `"t-{ts}"`
when the incoming id is falsy, kept verbatim otherwise. -/
theorem normPatchTask_taskId (ts : Nat) (iso : String) (t : TaskModel) :
    (normPatchTask ts iso t).taskId =
      (if optFalsy t.taskId then some ("t-" ++ toString ts) else t.taskId) := by
  cases hid : optFalsy t.taskId <;>
    cases hc : t.isDone && optFalsy t.completedAt <;>
      simp [normPatchTask, hid, hc]

/-- A non-empty string option is not falsy. -/
theorem optFalsy_false_of_some_ne (s : String) (h : s ≠ "") :
    optFalsy (some s) = false := by
  simpa [optFalsy] using h

/-- C3: in Patch-tasks, `completedAt` is stamped with the current time
exactly for incoming tasks marked done that lack a `completedAt`
(absent or empty), and the per-call completion flag is raised only for
those tasks; a task resent with its non-absent `completedAt` keeps it
verbatim, whether or not it is done. -/
theorem completedAt_stamped_once (ts : Nat) (iso : String) (t : TaskModel) :
    (t.isDone = true → optFalsy t.completedAt = true →
      (normPatchTask ts iso t).completedAt = some iso ∧ taskCompletes t = true) ∧
    (∀ s, t.completedAt = some s → s ≠ "" →
      (normPatchTask ts iso t).completedAt = some s ∧ taskCompletes t = false) ∧
    (t.isDone = false →
      (normPatchTask ts iso t).completedAt = t.completedAt ∧ taskCompletes t = false) := by
  refine ⟨fun hd hf => ?_, fun s hs hne => ?_, fun hd => ?_⟩
  · have hc : taskCompletes t = true := by simp [taskCompletes, hd, hf]
    rw [normPatchTask_completedAt, hc]
    exact ⟨if_pos rfl, rfl⟩
  · have hf : optFalsy t.completedAt = false := by
      rw [hs]; exact optFalsy_false_of_some_ne s hne
    have hc : taskCompletes t = false := by simp [taskCompletes, hf]
    rw [normPatchTask_completedAt, hc]
    exact ⟨by rw [if_neg (by simp)]; exact hs, rfl⟩
  · have hc : taskCompletes t = false := by simp [taskCompletes, hd]
    rw [normPatchTask_completedAt, hc]
    exact ⟨by rw [if_neg (by simp)], rfl⟩

/-- C3 witness: a done task without `completedAt` is stamped and
flagged; a task resending `completedAt = "T0"` keeps it unchanged. -/
theorem completedAt_stamped_once_witness :
    ((normPatchTask 7 "T1" { label := "a", isDone := true }).completedAt = some "T1" ∧
      taskCompletes { label := "a", isDone := true } = true) ∧
    ((normPatchTask 7 "T1" { label := "b", isDone := true, completedAt := some "T0" }).completedAt = some "T0" ∧
      taskCompletes { label := "b", isDone := true, completedAt := some "T0" } = false) := by
  constructor
  · exact (completedAt_stamped_once 7 "T1" { label := "a", isDone := true }).1 (by decide) (by decide)
  · exact (completedAt_stamped_once 7 "T1"
      { label := "b", isDone := true, completedAt := some "T0" }).2.1 "T0" (by decide) (by decide)

/-- Case analysis of the streak update: the five branches of
main.py lines 627-644, under the assumption that today's ISO string
parses back to today (true of every real date). -/
theorem streakUpdate_cases (prevLast : Option String) (k : Int) (today : PyDate)
    (hrt : PyDate.fromisoformat today.isoformat = some today) :
    (streakUpdate prevLast k false today = (k, prevLast)) ∧
    ((streakUpdate prevLast k true today).2 = some today.isoformat) ∧
    (prevLast = none → (streakUpdate prevLast k true today).1 = 1) ∧
    (prevLast = some today.isoformat → (streakUpdate prevLast k true today).1 = k) ∧
    (∀ s d, prevLast = some s → PyDate.fromisoformat s = some d →
      dateDiffDays today d = 1 → (streakUpdate prevLast k true today).1 = k + 1) ∧
    (∀ s d, prevLast = some s → PyDate.fromisoformat s = some d →
      dateDiffDays today d ≠ 1 → d ≠ today → (streakUpdate prevLast k true today).1 = 1) ∧
    (∀ s, prevLast = some s → PyDate.fromisoformat s = none →
      (streakUpdate prevLast k true today).1 = 1) := by
  refine ⟨rfl, rfl, ?_, ?_, ?_, ?_, ?_⟩
  · rintro rfl; rfl
  · rintro rfl; simp [streakUpdate]
  · rintro s d rfl hp hdiff
    have hs : s ≠ today.isoformat := by
      rintro rfl
      rw [hrt] at hp
      have hdt : d = today := by injection hp with h2; exact h2.symm
      rw [hdt] at hdiff
      simp [dateDiffDays] at hdiff
    simp [streakUpdate, hs, hp, hdiff]
  · rintro s d rfl hp hdiff hd
    have hs : s ≠ today.isoformat := by
      rintro rfl
      rw [hrt] at hp
      have hdt : today = d := by injection hp
      exact hd hdt.symm
    simp [streakUpdate, hs, hp, hdiff]
  · rintro s rfl hp
    have hs : s ≠ today.isoformat := by
      rintro rfl
      rw [hrt] at hp
      cases hp
    simp [streakUpdate, hs, hp]

/-- C2: the streak transition table of Patch-tasks.  When at least one
task completes this call, the resulting `streakCount` is 1 if the
stored `lastCompletedDate` is absent, unchanged if it equals today,
the prior count plus 1 if it is exactly one calendar day before today,
and 1 (reset) for any other or malformed date; in every completing
case `lastCompletedDate` becomes today.  When no completion occurs,
both fields are unchanged.  (The hypothesis `hrt`, satisfied by every
real calendar date, says today's ISO string parses back to today.) -/
theorem patch_streak_transition_table (plan : Plan) (inc : List TaskModel)
    (ts : Nat) (iso : String) (today : PyDate)
    (hrt : PyDate.fromisoformat today.isoformat = some today) :
    (inc.any taskCompletes = false →
      (patchTasksApply plan inc ts iso today).streakCount = plan.streakCount ∧
      (patchTasksApply plan inc ts iso today).lastCompletedDate = plan.lastCompletedDate) ∧
    (inc.any taskCompletes = true →
      (patchTasksApply plan inc ts iso today).lastCompletedDate = some today.isoformat ∧
      (plan.lastCompletedDate = none →
        (patchTasksApply plan inc ts iso today).streakCount = 1) ∧
      (plan.lastCompletedDate = some today.isoformat →
        (patchTasksApply plan inc ts iso today).streakCount = plan.streakCount) ∧
      (∀ s d, plan.lastCompletedDate = some s → PyDate.fromisoformat s = some d →
        dateDiffDays today d = 1 →
        (patchTasksApply plan inc ts iso today).streakCount = plan.streakCount + 1) ∧
      (∀ s d, plan.lastCompletedDate = some s → PyDate.fromisoformat s = some d →
        dateDiffDays today d ≠ 1 → d ≠ today →
        (patchTasksApply plan inc ts iso today).streakCount = 1) ∧
      (∀ s, plan.lastCompletedDate = some s → PyDate.fromisoformat s = none →
        (patchTasksApply plan inc ts iso today).streakCount = 1)) := by
  have e1 : (patchTasksApply plan inc ts iso today).streakCount =
      (streakUpdate plan.lastCompletedDate plan.streakCount (inc.any taskCompletes) today).1 := rfl
  have e2 : (patchTasksApply plan inc ts iso today).lastCompletedDate =
      (streakUpdate plan.lastCompletedDate plan.streakCount (inc.any taskCompletes) today).2 := rfl
  obtain ⟨u1, u2, u3, u4, u5, u6, u7⟩ :=
    streakUpdate_cases plan.lastCompletedDate plan.streakCount today hrt
  constructor
  · intro h
    rw [e1, e2, h, u1]
    exact ⟨rfl, rfl⟩
  · intro h
    rw [e1, e2, h]
    exact ⟨u2, u3, u4, u5, u6, u7⟩

/-- A stored plan whose last completion was 2026-10-11, streak 3. -/
def c2Plan : Plan :=
  { name := "P", type := "game", linkedIdeaId := none, linkedPathId := none,
    robuxGoal := none, notes := "", tasks := [{ label := "w" }],
    progressPercent := 0, streakCount := 3,
    lastCompletedDate := some "2026-10-11", createdAt := "T0", updatedAt := "T0" }

/-- C2 witness: patching `c2Plan` with one newly-done task on
2026-10-12 (the day after the stored completion) bumps the streak to 4
and stamps today. -/
theorem patch_streak_transition_table_witness :
    (patchTasksApply c2Plan [{ label := "w", isDone := true }] 0 "T1" ⟨2026, 10, 12⟩).streakCount = 4 ∧
    (patchTasksApply c2Plan [{ label := "w", isDone := true }] 0 "T1" ⟨2026, 10, 12⟩).lastCompletedDate =
      some "2026-10-12" := by
  have h := patch_streak_transition_table c2Plan [{ label := "w", isDone := true }]
    0 "T1" ⟨2026, 10, 12⟩ (by decide)
  have h2 := h.2 (by decide)
  refine ⟨?_, ?_⟩
  · have := h2.2.2.2.1 "2026-10-11" ⟨2026, 10, 11⟩ rfl (by decide) (by decide)
    simpa using this
  · simpa using h2.1

/-- C10: Patch-tasks replaces the stored task list wholesale with the
normalized incoming list: the stored list plays no role in the result,
every stored task afterwards comes from the request (so tasks absent
from the request are removed), and caller-supplied non-empty `taskId`
and `completedAt` values are persisted verbatim, never checked against
the previously stored tasks. -/
theorem patch_replaces_tasks_wholesale (plan : Plan) (inc : List TaskModel)
    (ts : Nat) (iso : String) (today : PyDate) :
    ((patchTasksApply plan inc ts iso today).tasks = inc.map (normPatchTask ts iso)) ∧
    (∀ plan2 : Plan, (patchTasksApply plan2 inc ts iso today).tasks =
      (patchTasksApply plan inc ts iso today).tasks) ∧
    (∀ t s, t ∈ inc → t.taskId = some s → s ≠ "" →
      (normPatchTask ts iso t).taskId = some s ∧
      normPatchTask ts iso t ∈ (patchTasksApply plan inc ts iso today).tasks) ∧
    (∀ t s, t ∈ inc → t.completedAt = some s → s ≠ "" →
      (normPatchTask ts iso t).completedAt = some s) ∧
    (∀ t2, t2 ∈ (patchTasksApply plan inc ts iso today).tasks →
      ∃ t, t ∈ inc ∧ t2 = normPatchTask ts iso t) := by
  refine ⟨rfl, fun plan2 => rfl, fun t s ht hs hne => ⟨?_, ?_⟩, fun t s ht hs hne => ?_, fun t2 ht2 => ?_⟩
  · rw [normPatchTask_taskId, hs, if_neg (by simp [optFalsy_false_of_some_ne s hne])]
  · exact List.mem_map_of_mem _ ht
  · rw [normPatchTask_completedAt, hs,
      if_neg (by simp [taskCompletes, hs, optFalsy_false_of_some_ne s hne])]
  · obtain ⟨t, ht, he⟩ := List.mem_map.1 ht2
    exact ⟨t, ht, he.symm⟩

/-- A patched task resending an explicit id and completion stamp. -/
def c10Task : TaskModel :=
  { taskId := some "keep", label := "a", isDone := true, completedAt := some "T0" }

/-- C10 witness: patching `c2Plan` (which stored an unrelated task)
with `[c10Task]` keeps the supplied id and stamp verbatim and replaces
the stored list. -/
theorem patch_replaces_tasks_wholesale_witness :
    (normPatchTask 0 "T1" c10Task).taskId = some "keep" ∧
    (normPatchTask 0 "T1" c10Task).completedAt = some "T0" ∧
    (patchTasksApply c2Plan [c10Task] 0 "T1" ⟨2026, 10, 12⟩).tasks = [c10Task] := by
  have h := patch_replaces_tasks_wholesale c2Plan [c10Task] 0 "T1" ⟨2026, 10, 12⟩
  refine ⟨(h.2.2.1 c10Task "keep" (by simp) rfl (by decide)).1,
    h.2.2.2.1 c10Task "T0" (by simp) rfl (by decide), ?_⟩
  rw [h.1]
  decide

/-- A string with a non-empty left part of an append is non-empty. -/
theorem append_ne_empty_left (a b : String) (h : a ≠ "") : a ++ b ≠ "" := by
  intro he
  apply h
  have hl := congrArg String.length he
  rw [String.length_append, String.length_empty] at hl
  have ha : a.length = 0 := by omega
  obtain ⟨data⟩ := a
  cases data with
  | nil => rfl
  | cons c cs => simp [String.length] at ha

/-- The id generated by `create_plan` for index `j` is non-empty. -/
theorem createGenId_ne_empty (j ts : Nat) :
    ("t" ++ toString j ++ "-" ++ toString ts) ≠ "" := by
  apply append_ne_empty_left
  apply append_ne_empty_left
  apply append_ne_empty_left
  decide

/-- After `normTaskCreate`, the task id is present and non-empty. -/
theorem normTaskCreate_taskId_nonempty (ts j : Nat) (t : TaskModel) :
    ∃ s, (normTaskCreate ts j t).taskId = some s ∧ s ≠ "" := by
  by_cases hid : optFalsy t.taskId = true
  · exact ⟨"t" ++ toString j ++ "-" ++ toString ts,
      by simp [normTaskCreate, hid], createGenId_ne_empty j ts⟩
  · rw [Bool.not_eq_true] at hid
    have hkeep : (normTaskCreate ts j t).taskId = t.taskId := by
      simp [normTaskCreate, hid]
    cases hv : t.taskId with
    | none => rw [hv] at hid; simp [optFalsy] at hid
    | some s =>
      refine ⟨s, by rw [hkeep, hv], ?_⟩
      rw [hv] at hid
      simpa [optFalsy] using hid

/-- Every member of the normalized create list is `normTaskCreate` of
some incoming task at some index. -/
theorem mem_normalizeCreateTasksFrom (ts : Nat) (t2 : TaskModel) :
    ∀ (i : Nat) (l : List TaskModel), t2 ∈ normalizeCreateTasksFrom ts i l →
      ∃ j t, t ∈ l ∧ t2 = normTaskCreate ts j t := by
  intro i l
  induction l generalizing i with
  | nil => intro h; cases h
  | cons a rest ih =>
    intro h
    rw [normalizeCreateTasksFrom, List.mem_cons] at h
    rcases h with h | h
    · exact ⟨i, a, List.mem_cons_self a rest, h⟩
    · obtain ⟨j, t, ht, he⟩ := ih (i + 1) h
      exact ⟨j, t, List.mem_cons_of_mem a ht, he⟩

/-- A string option is not falsy exactly when it holds a non-empty
string. -/
theorem optFalsy_eq_false_iff (o : Option String) :
    optFalsy o = false ↔ ∃ s, o = some s ∧ s ≠ "" := by
  cases o <;> simp [optFalsy]

/-- C4 (amended): after any Create or Patch-tasks call every stored
task has a non-empty id, but uniqueness within the plan is not
enforced: duplicate caller-supplied ids are kept verbatim
(`task_ids_unique_cex`), and Patch-tasks assigns the identical
generated id `"t-{ts}"` to every task lacking one in a call. -/
theorem task_ids_nonempty_not_unique :
    (∀ (p : PlanCreate) (ts : Nat) (iso : String) (t : TaskModel),
      t ∈ (createPlanData p ts iso).tasks → ∃ s, t.taskId = some s ∧ s ≠ "") ∧
    (∀ (plan : Plan) (inc : List TaskModel) (ts : Nat) (iso : String)
      (today : PyDate) (t : TaskModel),
      t ∈ (patchTasksApply plan inc ts iso today).tasks → ∃ s, t.taskId = some s ∧ s ≠ "") ∧
    (∀ (ts : Nat) (iso : String) (t u : TaskModel),
      optFalsy t.taskId = true → optFalsy u.taskId = true →
      (normPatchTask ts iso t).taskId = (normPatchTask ts iso u).taskId) := by
  refine ⟨fun p ts iso t ht => ?_, fun plan inc ts iso today t ht => ?_,
    fun ts iso t u hft hfu => ?_⟩
  · have e : (createPlanData p ts iso).tasks =
        normalizeCreateTasksFrom ts 0 (createEnriched p).1 := rfl
    rw [e] at ht
    obtain ⟨j, t0, _, rfl⟩ := mem_normalizeCreateTasksFrom ts t 0 (createEnriched p).1 ht
    exact normTaskCreate_taskId_nonempty ts j t0
  · have e : (patchTasksApply plan inc ts iso today).tasks =
        inc.map (normPatchTask ts iso) := rfl
    rw [e] at ht
    obtain ⟨t0, _, rfl⟩ := List.mem_map.1 ht
    rw [normPatchTask_taskId]
    by_cases hid : optFalsy t0.taskId = true
    · exact ⟨"t-" ++ toString ts, by rw [if_pos hid],
        append_ne_empty_left _ _ (by decide)⟩
    · rw [Bool.not_eq_true] at hid
      obtain ⟨s, hv, hne⟩ := (optFalsy_eq_false_iff t0.taskId).1 hid
      exact ⟨s, by rw [if_neg (by simp [hid]), hv], hne⟩
  · rw [normPatchTask_taskId, normPatchTask_taskId, if_pos hft, if_pos hfu]

/-- A create payload whose caller supplies the same id twice. -/
def c4Payload : PlanCreate :=
  { name := "P", type := "game",
    tasks := [{ taskId := some "a", label := "x" }, { taskId := some "a", label := "y" }] }

/-- C4 counterexample: Create keeps both caller-supplied copies of the
id `"a"`, so the stored ids are not unique within the plan. -/
theorem task_ids_unique_cex :
    ¬ ((createPlanData c4Payload 0 "T").tasks.map (fun t => t.taskId)).Nodup := by
  decide

/-- C4 witness: the non-emptiness facts at concrete calls, and the
patch-generated collision for two id-less tasks in one call. -/
theorem task_ids_nonempty_not_unique_witness :
    (∃ s, ({ taskId := some "a", label := "x" } : TaskModel).taskId = some s ∧ s ≠ "") ∧
    (normPatchTask 5 "T1" { label := "p" }).taskId =
      (normPatchTask 5 "T1" { label := "q" }).taskId := by
  constructor
  · exact task_ids_nonempty_not_unique.1 c4Payload 0 "T"
      { taskId := some "a", label := "x" } (by decide)
  · exact task_ids_nonempty_not_unique.2.2 5 "T1"
      { label := "p" } { label := "q" } (by decide) (by decide)

/-- An empty stored plan with zero streak. -/
def c5Plan : Plan :=
  { name := "P", type := "game", linkedIdeaId := none, linkedPathId := none,
    robuxGoal := none, notes := "", tasks := [], progressPercent := 0,
    streakCount := 0, lastCompletedDate := none, createdAt := "T0", updatedAt := "T0" }

/-- A PUT body carrying only `streakCount = 5`. -/
def c5Upd : PlanUpdate := { streakCount := some 5 }

/-- A well-formed 24-hex plan id. -/
def c5Id : String := "0123456789abcdef01234567"

/-- A store holding `c5Plan` under `c5Id`. -/
def c5Store : Store := ⟨[(c5Id, c5Plan)]⟩

/-- `c5Plan` after the PUT: streak overwritten to 5. -/
def c5After : Plan := { c5Plan with streakCount := 5, updatedAt := "T1" }

/-- C5 counterexample: a PUT whose body contains no tasks at all (so
no task transitions to done) changes the stored streakCount from 0 to
5, because `PlanUpdate` exposes `streakCount` and `put_plan` writes
every supplied field verbatim. -/
theorem streak_invariant_cex :
    (putPlanR (some c5Store) c5Id c5Upd "T1").1 = .ok c5After ∧
    c5After.streakCount = 5 ∧ c5Plan.streakCount = 0 ∧ c5Upd.tasks = none :=
  ⟨rfl, rfl, rfl, rfl⟩

/-- C5 (amended): Create initialises streakCount to 0; Patch-notes
never changes it; Patch-tasks leaves it unchanged when no completion
occurs this call (and otherwise follows the streak rule of
`patch_streak_transition_table`); but Replace/PUT overwrites
streakCount verbatim whenever the caller supplies one, and leaves it
unchanged when the caller does not. -/
theorem streak_only_patch_completion_or_put_override :
    (∀ (p : PlanCreate) (ts : Nat) (iso : String),
      (createPlanData p ts iso).streakCount = 0) ∧
    (∀ (plan : Plan) (notes iso : String),
      (patchNotesApply plan notes iso).streakCount = plan.streakCount) ∧
    (∀ (plan : Plan) (u : PlanUpdate) (iso : String), u.streakCount = none →
      (applyPlanUpdate plan u iso).streakCount = plan.streakCount) ∧
    (∀ (plan : Plan) (u : PlanUpdate) (k : Int) (iso : String), u.streakCount = some k →
      (applyPlanUpdate plan u iso).streakCount = k) ∧
    (∀ (plan : Plan) (inc : List TaskModel) (ts : Nat) (iso : String) (today : PyDate),
      inc.any taskCompletes = false →
      (patchTasksApply plan inc ts iso today).streakCount = plan.streakCount) := by
  refine ⟨fun p ts iso => rfl, fun plan notes iso => rfl,
    fun plan u iso h => ?_, fun plan u k iso h => ?_,
    fun plan inc ts iso today h => ?_⟩
  · simp [applyPlanUpdate, h]
  · simp [applyPlanUpdate, h]
  · have e : (patchTasksApply plan inc ts iso today).streakCount =
      (streakUpdate plan.lastCompletedDate plan.streakCount (inc.any taskCompletes) today).1 := rfl
    rw [e, h]
    rfl

/-- C5 witness: the streak-preservation clauses at concrete inputs:
an empty PUT and a patch with no completing task leave `c5Plan`'s
streak at 0. -/
theorem streak_only_patch_completion_or_put_override_witness :
    (applyPlanUpdate c5Plan {} "T1").streakCount = c5Plan.streakCount ∧
    (applyPlanUpdate c5Plan c5Upd "T1").streakCount = 5 ∧
    (patchTasksApply c5Plan [{ label := "n" }] 0 "T1" ⟨2026, 10, 12⟩).streakCount =
      c5Plan.streakCount :=
  ⟨streak_only_patch_completion_or_put_override.2.2.1 c5Plan {} "T1" rfl,
   streak_only_patch_completion_or_put_override.2.2.2.1 c5Plan c5Upd 5 "T1" rfl,
   streak_only_patch_completion_or_put_override.2.2.2.2 c5Plan [{ label := "n" }]
     0 "T1" ⟨2026, 10, 12⟩ (by decide)⟩

/-- C6 counterexample: with no configured store, `GET /api/plans` does
not fail with a 500: it returns the empty list with status 200. -/
theorem store_unavailable_list_cex :
    getPlansR none = .ok ([] : List Plan) := rfl

/-- C6 (amended): with no configured store, the get, put, patch-tasks,
patch-notes and delete plan endpoints fail with the generic 500, and
the insert behind create is a 500 as the spec prescribes for the
missing store adapter; but the list endpoint instead succeeds with an
empty list.  No Catalog endpoint can produce anything but a 404 -- they
never consult the store. -/
theorem store_unavailable_behavior :
    (∀ id, getPlanR none id = .error ⟨500, "Database not configured"⟩) ∧
    (∀ id u iso, putPlanR none id u iso =
      (.error ⟨500, "Database not configured"⟩, none)) ∧
    (∀ id inc ts iso today, patchTasksR none id inc ts iso today =
      (.error ⟨500, "Database not configured"⟩, none)) ∧
    (∀ id notes iso, patchNotesR none id notes iso =
      (.error ⟨500, "Database not configured"⟩, none)) ∧
    (∀ id, deletePlanR none id = (.error ⟨500, "Database not configured"⟩, none)) ∧
    (∀ plan, createDocument none plan = .error ⟨500, "Database not configured"⟩) ∧
    (getPlansR none = .ok []) ∧
    (∀ id, (getIdeaR id).isOk = true ∨ getIdeaR id = .error ⟨404, "Idea not found"⟩) ∧
    (∀ id, (getPathR id).isOk = true ∨ getPathR id = .error ⟨404, "Path not found"⟩) ∧
    (∀ id, (getWorldR id).isOk = true ∨ getWorldR id = .error ⟨404, "World not found"⟩) ∧
    (∀ a b c d, (listIdeasR a b c d).isOk = true) ∧
    (listPathsR.isOk = true) ∧
    (∀ a b, (listWorldsR a b).isOk = true) := by
  refine ⟨fun id => rfl, fun id u iso => rfl, fun id inc ts iso today => rfl,
    fun id notes iso => rfl, fun id => rfl, fun plan => rfl, rfl,
    fun id => ?_, fun id => ?_, fun id => ?_, fun a b c d => rfl, rfl, fun a b => rfl⟩
  · unfold getIdeaR
    cases IDEAS.find? (fun (i : GameIdea) => i.id == id) with
    | none => exact Or.inr rfl
    | some i => exact Or.inl rfl
  · unfold getPathR
    cases PATHS.find? (fun (p : EarnPath) => p.id == id) with
    | none => exact Or.inr rfl
    | some p => exact Or.inl rfl
  · unfold getWorldR
    cases WORLDS.find? (fun (w : World) => w.id == id) with
    | none => exact Or.inr rfl
    | some w => exact Or.inl rfl

/-- `normTaskCreate` only touches the task id. -/
theorem normTaskCreate_keeps_display (ts j : Nat) (t : TaskModel) :
    (normTaskCreate ts j t).label = t.label ∧
    (normTaskCreate ts j t).isDone = t.isDone := by
  unfold normTaskCreate
  split <;> simp

/-- Create normalization preserves labels and done flags pointwise. -/
theorem normalizeCreateTasksFrom_map_display (ts : Nat) :
    ∀ (i : Nat) (l : List TaskModel),
      (normalizeCreateTasksFrom ts i l).map (fun t => (t.label, t.isDone)) =
        l.map (fun t => (t.label, t.isDone)) := by
  intro i l
  induction l generalizing i with
  | nil => rfl
  | cons a rest ih =>
    rw [normalizeCreateTasksFrom, List.map_cons, List.map_cons, ih (i + 1)]
    obtain ⟨h1, h2⟩ := normTaskCreate_keeps_display ts i a
    rw [h1, h2]

/-- Create normalization preserves the list length. -/
theorem normalizeCreateTasksFrom_length (ts : Nat) :
    ∀ (i : Nat) (l : List TaskModel),
      (normalizeCreateTasksFrom ts i l).length = l.length := by
  intro i l
  induction l generalizing i with
  | nil => rfl
  | cons a rest ih =>
    rw [normalizeCreateTasksFrom, List.length_cons, List.length_cons, ih (i + 1)]

/-- C7: creating a plan whose `linkedIdeaId` resolves to an idea with
at least 4 mechanics, 2 fun hooks and 3 monetization ideas (and no
path link) appends, after the caller tasks, exactly 3 mechanic tasks
labelled `"Design: {mechanic}"`, 2 fun-hook tasks, and 2 monetization
tasks labelled `"Plan monetization: {idea}"`, each not done. -/
theorem create_idea_enrichment (p : PlanCreate) (iid : String) (idea : GameIdea)
    (ts : Nat) (iso : String)
    (hlink : p.linkedIdeaId = some iid)
    (hfind : IDEAS.find? (fun (i : GameIdea) => i.id == iid) = some idea)
    (hpath : p.linkedPathId = none)
    (hm : 4 ≤ idea.coreMechanics.length)
    (hf : 2 ≤ idea.funHooks.length)
    (hz : 3 ≤ idea.monetizationIdeas.length) :
    ((createPlanData p ts iso).tasks.map (fun t => (t.label, t.isDone)) =
      p.tasks.map (fun t => (t.label, t.isDone)) ++
      ((idea.coreMechanics.take 3).map (fun l => ("Design: " ++ l, false)) ++
       (idea.funHooks.take 2).map (fun l => ("Design: " ++ l, false)) ++
       (idea.monetizationIdeas.take 2).map (fun l => ("Plan monetization: " ++ l, false)))) ∧
    ((idea.coreMechanics.take 3).length = 3 ∧ (idea.funHooks.take 2).length = 2 ∧
      (idea.monetizationIdeas.take 2).length = 2) ∧
    (createPlanData p ts iso).tasks.length = p.tasks.length + 7 := by
  have e : (createPlanData p ts iso).tasks =
      normalizeCreateTasksFrom ts 0 (createEnriched p).1 := rfl
  have he : (createEnriched p).1 = p.tasks ++ ideaTasks idea := by
    simp [createEnriched, hlink, hfind, hpath]
  refine ⟨?_, ⟨?_, ?_, ?_⟩, ?_⟩
  · rw [e, normalizeCreateTasksFrom_map_display, he]
    simp only [ideaTasks, List.map_append, List.map_map, List.append_assoc]
    rfl
  · simp [List.length_take]; omega
  · simp [List.length_take]; omega
  · simp [List.length_take]; omega
  · rw [e, normalizeCreateTasksFrom_length, he]
    simp [ideaTasks, List.length_append, List.length_take]
    omega

/-- A create payload linking the seeded idea `idea-obby-lava` (5 core
mechanics, 4 fun hooks, 3 monetization ideas). -/
def c7Payload : PlanCreate :=
  { name := "G", type := "game", linkedIdeaId := some "idea-obby-lava",
    tasks := [{ label := "mine" }] }

/-- The first seeded idea. -/
def c7Idea : GameIdea := IDEAS.get ⟨0, by decide⟩

/-- C7 witness: the enrichment theorem applied to `c7Payload`: one
caller task followed by exactly 3 + 2 + 2 synthetic tasks, all not
done. -/
theorem create_idea_enrichment_witness :
    (createPlanData c7Payload 0 "T").tasks.map (fun t => (t.label, t.isDone)) =
      [("mine", false),
       ("Design: Jump timing", false), ("Design: Moving platforms", false),
       ("Design: Checkpoints", false),
       ("Design: Daily challenges", false), ("Design: Hidden rooms", false),
       ("Plan monetization: Gamepasses: double coins, speed boost", false),
       ("Plan monetization: Dev products: shield, checkpoint skip", false)] ∧
    (createPlanData c7Payload 0 "T").tasks.length = c7Payload.tasks.length + 7 := by
  have h := create_idea_enrichment c7Payload "idea-obby-lava" c7Idea 0 "T"
    rfl (by decide) rfl (by decide) (by decide) (by decide)
  refine ⟨?_, h.2.2⟩
  rw [h.1]
  decide

/-- C8: a Create request with a missing name, a missing type, or a
type outside the enumeration game|earning|challenge is rejected with a
422 before any document-store access, leaving the store exactly as it
was. -/
theorem invalid_create_rejected (db : Option Store) (raw : RawPlanCreate)
    (ts : Nat) (iso : String)
    (h : raw.name = none ∨ ∃ ty, raw.type = some ty ∧ planTypeOk ty = false) :
    (createPlanR db raw ts iso).1 = .error ⟨422, "Unprocessable Entity"⟩ ∧
    (createPlanR db raw ts iso).2 = db := by
  have hp : parsePlanCreate raw = .error ⟨422, "Unprocessable Entity"⟩ := by
    rcases h with hn | ⟨ty, hty, hbad⟩
    · unfold parsePlanCreate
      rw [hn]
    · unfold parsePlanCreate
      rw [hty]
      cases raw.name with
      | none => rfl
      | some n => simp [hbad]
  unfold createPlanR
  rw [hp]
  exact ⟨rfl, rfl⟩

/-- C8 witness: a body with a name but type `"quest"` is rejected and
a store holding `c5Plan` is untouched. -/
theorem invalid_create_rejected_witness :
    (createPlanR (some c5Store) { name := some "P", type := some "quest" } 0 "T").1 =
      .error ⟨422, "Unprocessable Entity"⟩ ∧
    (createPlanR (some c5Store) { name := some "P", type := some "quest" } 0 "T").2 =
      some c5Store :=
  invalid_create_rejected (some c5Store) { name := some "P", type := some "quest" } 0 "T"
    (Or.inr ⟨"quest", rfl, by decide⟩)

/-- C9 (amended): creating a plan whose `linkedIdeaId` or
`linkedPathId` does not resolve succeeds with enrichment silently
skipped: the stored plan is the one a link-free request would produce,
except that the unresolvable link ids themselves are persisted
verbatim in `linkedIdeaId`/`linkedPathId`. -/
theorem unresolved_link_skips_enrichment (p : PlanCreate) (ts : Nat) (iso : String)
    (hi : ∀ iid, p.linkedIdeaId = some iid →
      IDEAS.find? (fun (i : GameIdea) => i.id == iid) = none)
    (hp : ∀ pid, p.linkedPathId = some pid →
      PATHS.find? (fun (q : EarnPath) => q.id == pid) = none) :
    createPlanData p ts iso =
      { createPlanData { p with linkedIdeaId := none, linkedPathId := none } ts iso with
        linkedIdeaId := p.linkedIdeaId, linkedPathId := p.linkedPathId } := by
  have he : createEnriched p = (p.tasks, p.notes) := by
    cases hli : p.linkedIdeaId with
    | none =>
      cases hlp : p.linkedPathId with
      | none => simp [createEnriched, hli, hlp]
      | some pid => simp [createEnriched, hli, hlp, hp pid hlp]
    | some iid =>
      cases hlp : p.linkedPathId with
      | none => simp [createEnriched, hli, hlp, hi iid hli]
      | some pid => simp [createEnriched, hli, hlp, hi iid hli, hp pid hlp]
  have he2 : createEnriched { p with linkedIdeaId := none, linkedPathId := none } =
      (p.tasks, p.notes) := rfl
  unfold createPlanData
  rw [he, he2]

/-- A create payload with an unresolvable idea link. -/
def c9Linked : PlanCreate :=
  { name := "P", type := "game", linkedIdeaId := some "idea-nope" }

/-- The same payload without the link. -/
def c9Plain : PlanCreate := { name := "P", type := "game" }

/-- C9 counterexample: the plan stored for the unresolvable link is
not the plan stored "as if no link had been given": its
`linkedIdeaId` field still records `"idea-nope"`. -/
theorem unresolved_link_stored_verbatim_cex :
    createPlanData c9Linked 0 "T" ≠ createPlanData c9Plain 0 "T" ∧
    (createPlanData c9Linked 0 "T").linkedIdeaId = some "idea-nope" ∧
    (createPlanData c9Plain 0 "T").linkedIdeaId = none := by
  refine ⟨?_, rfl, rfl⟩
  decide

/-- C9 witness: the amended statement at the concrete payload
`c9Linked`, whose link resolves to nothing in the seeded catalog. -/
theorem unresolved_link_skips_enrichment_witness :
    createPlanData c9Linked 0 "T" =
      { createPlanData { c9Linked with linkedIdeaId := none, linkedPathId := none } 0 "T" with
        linkedIdeaId := c9Linked.linkedIdeaId, linkedPathId := c9Linked.linkedPathId } :=
  unresolved_link_skips_enrichment c9Linked 0 "T"
    (fun iid h => by
      have hv : iid = "idea-nope" := by
        have h2 : some "idea-nope" = some iid := h
        injection h2 with h3
        exact h3.symm
      rw [hv]
      decide)
    (fun pid h => by cases h)
